import Mathlib

/-!
# Verification of the item-service validation / persistence contract

Shallow embedding of the FastAPI + SQLite item service
(`schemas.py`, `models.py`, `main.py`, `database.py`): the Pydantic
validation layer, the persistence gateway with its update retry loop,
and the request handlers, modelled as pure Lean functions over an
explicit store state (a list of rows) with store faults injected as
explicit parameters.
-/

namespace ItemService

/-! ## Exact decimals (Python `decimal.Decimal`)

A decimal is a mantissa together with a non-negative scale: the value
`mant / 10^scale`.  `Decimal("10.00")` is `⟨1000, 2⟩`; `Decimal("9.999")`
is `⟨9999, 3⟩`.  Python's `quantize(Decimal('0.01'))` uses the default
context rounding, ROUND_HALF_EVEN. -/

structure Dec where
  mant : Int
  scale : Nat
deriving DecidableEq, Repr

/-- Round `n / m` (with `m > 0`) to the nearest integer, ties to even
(Python's ROUND_HALF_EVEN). `Int.ediv`/`Int.emod` give floor division with
`0 ≤ r < m`. -/
def halfEvenRound (n m : Int) : Int :=
  let q := n.ediv m
  let r := n.emod m
  if 2 * r < m then q
  else if m < 2 * r then q + 1
  else if q.emod 2 = 0 then q else q + 1

/-- `Decimal.quantize(Decimal('0.01'))`: rescale to exactly two fractional
digits, rounding half-even when digits are dropped. -/
def Dec.quantize2 (d : Dec) : Dec :=
  if d.scale ≤ 2 then ⟨d.mant * (10 : Int) ^ (2 - d.scale), 2⟩
  else ⟨halfEvenRound d.mant ((10 : Int) ^ (d.scale - 2)), 2⟩

/-- Numeric comparison of decimals (cross-multiplied mantissas). -/
def Dec.leB (a b : Dec) : Bool :=
  a.mant * (10 : Int) ^ b.scale ≤ b.mant * (10 : Int) ^ a.scale

/-- Numeric negativity of a decimal: `d < 0` iff its mantissa is negative. -/
def Dec.negB (d : Dec) : Bool := d.mant < 0

/-! ## Strings

Characters are handled as their code points so that everything reduces
in the kernel (core `String.toLower` and `String.splitOn` use
well-founded recursion). -/

/-- ASCII lower-casing of one code point (`str.lower` on the ASCII
letters that appear in the driver's error messages). -/
def lowerNat (n : Nat) : Nat := if 65 ≤ n ∧ n ≤ 90 then n + 32 else n

/-- Does the second code-point list occur as a leading segment of the
first? -/
def listStartsWith : List Nat → List Nat → Bool
  | _, [] => true
  | [], _ :: _ => false
  | a :: s, b :: p => a == b && listStartsWith s p

/-- Does the second code-point list occur contiguously anywhere in the
first? -/
def listHasSegment : List Nat → List Nat → Bool
  | [], pat => listStartsWith [] pat
  | a :: t, pat => listStartsWith (a :: t) pat || listHasSegment t pat

/-- `"locked" in str(e).lower()`: the contention test of `update_item`
(Python's `in` is literal containment). -/
def lockish (msg : String) : Bool :=
  listHasSegment (msg.data.map fun c => lowerNat c.toNat)
    ("locked".data.map Char.toNat)

/-- Modelled from the spec's words, not the source: literal
case-sensitive substring containment ("`name` contains substring").
Used only to compare the spec's description of the name filter with the
source-faithful SQLite `LIKE` filter below. -/
def specLiteralContains (s pat : String) : Bool :=
  listHasSegment (s.data.map Char.toNat) (pat.data.map Char.toNat)

/-- SQLite `LIKE` pattern matching over code points, with explicit fuel
so that it is structurally recursive (each step drops one code point of
pattern or text, so `pattern.length + text.length + 1` fuel suffices):
`%` (37) matches any sequence, `_` (95) matches exactly one character,
any other character matches ASCII case-insensitively (SQLite's default
`LIKE` is case-insensitive for the ASCII range only). -/
def likeMatchFuel : Nat → List Nat → List Nat → Bool
  | 0, _, _ => false
  | fuel + 1, pat, s =>
    match pat with
    | [] => s.isEmpty
    | p :: ps =>
      if p == 37 then
        likeMatchFuel fuel ps s ||
          (match s with
           | [] => false
           | _ :: t => likeMatchFuel fuel (p :: ps) t)
      else
        match s with
        | [] => false
        | c :: t =>
          if p == 95 then likeMatchFuel fuel ps t
          else (lowerNat p == lowerNat c) && likeMatchFuel fuel ps t

/-- SQLite `LIKE` with enough fuel for full pattern and text. -/
def likeMatch (pat s : List Nat) : Bool :=
  likeMatchFuel (pat.length + s.length + 1) pat s

/-- The `name_contains` filter as the code runs it:
`models.Item.name.contains(name_contains)` compiles to
`name LIKE '%' || ? || '%'` with no ESCAPE (SQLAlchemy `contains`
autoescape off), so the parameter's own `%`/`_` act as wildcards and
matching is ASCII case-insensitive. -/
def sqlLikeContains (s pat : String) : Bool :=
  likeMatch (37 :: pat.data.map Char.toNat ++ [37]) (s.data.map Char.toNat)

/-! ## The persisted row (`models.Item`)

`id` integer primary key; `name` String(50) NOT NULL; `description`
String(500) nullable; `price` Numeric(10,2) NOT NULL; `quantity` Integer
NOT NULL. -/

structure Item where
  id : Nat
  name : String
  description : Option String
  price : Dec
  quantity : Int
deriving DecidableEq, Repr

/-! ## Validation layer: `schemas.ItemCreate`

`ItemBase` requires `name` (1–50 chars), optional `description`
(≤ 500 chars), `price : Decimal` with `ge=0` then quantized to cents by
the `validate_price` field validator, `quantity : int` with `ge=0`. -/

/-- The raw create request body (all keys present; Pydantic would also
reject missing required keys, which we do not need to model for the
claims under study). -/
structure RawCreate where
  name : String
  description : Option String
  price : Dec
  quantity : Int
deriving DecidableEq, Repr

/-- A validated, normalized create payload. -/
structure CreatePayload where
  name : String
  description : Option String
  price : Dec
  quantity : Int
deriving DecidableEq, Repr

/-- Pydantic validation of `ItemCreate`: field constraints
(`min_length=1`, `max_length=50`, `max_length=500`, `ge=0`, `ge=0`),
then the `validate_price` validator which quantizes to two places. -/
def validateCreate (r : RawCreate) : Option CreatePayload :=
  if r.name.length < 1 then none
  else if 50 < r.name.length then none
  else if (match r.description with
           | some d => decide (500 < d.length)
           | none => false) then none
  else if r.price.negB then none
  else if r.quantity < 0 then none
  else some ⟨r.name, r.description, r.price.quantize2, r.quantity⟩

/-! ## Validation layer: `schemas.ItemUpdate`

Every field is annotated `Optional[...]` but `name`, `price` and
`quantity` are declared with `Field(...)` — the Ellipsis default — so
Pydantic treats those three keys as REQUIRED in the request body (the
value may be `null`, the key may not be absent).  Only `description`
(declared with `Field(None, ...)`) may be omitted.

A raw field is `Option (Option α)`: outer `none` = key absent from the
body, `some none` = key present with value `null`, `some (some v)` =
key present with value `v`. -/

structure RawUpdate where
  name : Option (Option String)
  description : Option (Option String)
  price : Option (Option Dec)
  quantity : Option (Option Int)
deriving DecidableEq, Repr

/-- A validated `ItemUpdate` instance, with per-field set markers as
reported by `model_dump(exclude_unset=True)`: outer `none` = field was
not supplied (excluded from the dump), `some v` = field was supplied
with (possibly null) value `v`. -/
structure ItemUpdateV where
  name : Option (Option String)
  description : Option (Option String)
  price : Option (Option Dec)
  quantity : Option (Option Int)
deriving DecidableEq, Repr

/-- Validate a supplied `name` value: `null` passes (Optional type),
otherwise `min_length=1, max_length=50`. -/
def checkNameU (v : Option String) : Option (Option String) :=
  match v with
  | none => some none
  | some s => if 1 ≤ s.length ∧ s.length ≤ 50 then some (some s) else none

/-- Validate a supplied `description` value: `null` passes, otherwise
`max_length=500`. -/
def checkDescU (v : Option String) : Option (Option String) :=
  match v with
  | none => some none
  | some s => if s.length ≤ 500 then some (some s) else none

/-- Validate a supplied `price` value: `null` passes; otherwise `ge=0`
and the `validate_price` validator quantizes to two places. -/
def checkPriceU (v : Option Dec) : Option (Option Dec) :=
  match v with
  | none => some none
  | some d => if d.negB then none else some (some d.quantize2)

/-- Validate a supplied `quantity` value: `null` passes, otherwise `ge=0`. -/
def checkQtyU (v : Option Int) : Option (Option Int) :=
  match v with
  | none => some none
  | some q => if q < 0 then none else some (some q)

/-- Pydantic validation of an `ItemUpdate` request body.  `name`,
`price` and `quantity` are required keys (`Field(...)`): a body missing
any of them is rejected.  `description` defaults to unset.  Supplied
values are validated per field. -/
def validateUpdate (r : RawUpdate) : Option ItemUpdateV :=
  match r.name, r.price, r.quantity with
  | some nv, some pv, some qv =>
    match checkNameU nv, checkPriceU pv, checkQtyU qv with
    | some n2, some p2, some q2 =>
      match r.description with
      | none => some ⟨some n2, none, some p2, some q2⟩
      | some dv =>
        match checkDescU dv with
        | some d2 => some ⟨some n2, some d2, some p2, some q2⟩
        | none => none
    | _, _, _ => none
  | _, _, _ => none

/-- `if not update_data:` — true iff `model_dump(exclude_unset=True)`
produced an empty dict, i.e. no field of the payload was supplied. -/
def updateDataEmpty (u : ItemUpdateV) : Bool :=
  u.name.isNone && u.description.isNone && u.price.isNone && u.quantity.isNone

/-- The UPDATE statement writes NULL into a NOT NULL column iff one of
`name`, `price`, `quantity` was supplied explicitly as `null`
(`description` is nullable). -/
def writesNull (u : ItemUpdateV) : Bool :=
  u.name == some none || u.price == some none || u.quantity == some none

/-- Apply the supplied fields of a validated update to a stored row
(the `.values(**update_data)` merge; only present keys are written). -/
def applyUpdate (x : Item) (u : ItemUpdateV) : Item :=
  { id := x.id
    name := match u.name with | some (some v) => v | _ => x.name
    description := match u.description with | some v => v | none => x.description
    price := match u.price with | some (some v) => v | _ => x.price
    quantity := match u.quantity with | some (some v) => v | _ => x.quantity }

/-! ## Request handlers / persistence gateway

The store is a list of rows in storage order.  Store-level faults
(exceptions raised by the driver) are injected explicitly: a `Bool` for
the read-only handlers, an attempt-indexed behaviour for the update
handler's retry loop. -/

/-- Error taxonomy as surfaced by the handlers (HTTP status + detail
family).  `internalError` is the generic 500 ("Internal server error" /
"Database error"); `busy` is the 500 with detail "Database is busy";
`validationError` is the 422 raised by request-body validation before
the handler runs; `integrityError` is the 400 integrity response;
`notFound` is the 404. -/
inductive Outcome where
  | ok (it : Item)
  | okList (its : List Item)
  | okMessage (msg : String)
  | validationError
  | notFound
  | integrityError
  | busy
  | internalError
deriving DecidableEq, Repr

/-- `POST /items/` (`create_item`): validation happens before the
handler; on success the row is inserted with a fresh id, committed and
re-read.  Returns the outcome, the new store, and the number of store
calls made. -/
def create_item (store : List Item) (r : RawCreate) :
    Outcome × List Item × Nat :=
  match validateCreate r with
  | none => (.validationError, store, 0)
  | some p =>
    let newId := (store.map Item.id).foldr max 0 + 1
    let row : Item := ⟨newId, p.name, p.description, p.price, p.quantity⟩
    let store2 := store ++ [row]
    match store2.find? (fun x => x.id == newId) with
    | some it => (.ok it, store2, 2)
    | none => (.internalError, store2, 2)

/-- `GET /items/{id}` (`get_item`): a store-level fault surfaces as
500; otherwise absence is 404 and presence returns the row. -/
def get_item (store : List Item) (id : Nat) (fault : Bool) : Outcome :=
  if fault then .internalError
  else
    match store.find? (fun x => x.id == id) with
    | none => .notFound
    | some x => .ok x

/-- `DELETE /items/{id}` (`delete_item`): a store-level fault surfaces
as 500; absence is 404; otherwise the row is removed and a confirmation
message returned.  Returns the outcome and the resulting store. -/
def delete_item (store : List Item) (id : Nat) (fault : Bool) :
    Outcome × List Item :=
  if fault then (.internalError, store)
  else
    match store.find? (fun x => x.id == id) with
    | none => (.notFound, store)
    | some _ => (.okMessage "Item deleted successfully",
                 store.filter (fun x => !(x.id == id)))

/-- The conjunction of the three optional filters of `list_items`:
`price >= min_price`, `price <= max_price`, and SQLite
`name LIKE '%' || s || '%'` (ASCII case-insensitive, `%`/`_` in the
parameter act as wildcards).  An empty `name_contains` is falsy in
Python and skips the filter. -/
def itemMatches (minPrice maxPrice : Option Dec) (nameContains : Option String)
    (x : Item) : Bool :=
  (match minPrice with | none => true | some m => Dec.leB m x.price) &&
  (match maxPrice with | none => true | some m => Dec.leB x.price m) &&
  (match nameContains with
   | none => true
   | some s => if s = "" then true else sqlLikeContains x.name s)

/-- `GET /items/` (`list_items`): WHERE-filter the store, then
`OFFSET skip LIMIT limit`. -/
def list_items (store : List Item) (skip limit : Nat)
    (minPrice maxPrice : Option Dec) (nameContains : Option String) :
    List Item :=
  (((store.filter (itemMatches minPrice maxPrice nameContains)).drop skip).take limit)

/-! ## The update handler and its retry loop -/

/-- What the store does when the update handler executes its UPDATE on
a given attempt: succeed, raise `OperationalError` with a message,
raise `IntegrityError`, or raise some other exception. -/
inductive StoreBehav where
  | ok
  | opError (msg : String)
  | integrityError
  | otherError
deriving DecidableEq, Repr

/-- Observable side effects of one update call: store calls issued,
loop iterations entered, rollbacks, and the backoff sleeps in
milliseconds, in order. -/
structure Stats where
  calls : Nat
  attempts : Nat
  rollbacks : Nat
  delays : List Nat
deriving DecidableEq, Repr

def stats0 : Stats := ⟨0, 0, 0, []⟩

/-- `max_retries = 3` in `update_item`. -/
def maxRetries : Nat := 3

/-- `retry_delay = 0.1` seconds, i.e. 100 ms. -/
def retryDelayMs : Nat := 100

/-- One pass of `for attempt in range(max_retries)` in `update_item`,
with `fuel` iterations left.  Inside the `try`: existence check (a 404
`HTTPException` here is caught by the handler's own bare
`except Exception` — there is no `except HTTPException: raise` in
`update_item` — and resurfaces as a 500), the empty-`update_data`
check (likewise swallowed into a 500), then the UPDATE execution.
`OperationalError` with "locked" in the lowercased message retries with
rollback and a `retry_delay * (attempt + 1)` sleep while
`attempt < max_retries - 1`, else surfaces `busy`; `IntegrityError`
(injected, or NULL written to a NOT NULL column) rolls back to a 400;
any other exception rolls back to a 500.  On success the update is
committed and the row re-read.

Stats accounting per iteration: the existence SELECT and the UPDATE
execution are one store call each, the re-read SELECT after commit a
third; every exception path rolls back once; every backoff sleep
appends its duration. -/
def update_item_loop (store : List Item) (id : Nat) (u : ItemUpdateV)
    (behav : Nat → StoreBehav) :
    (fuel : Nat) → (attempt : Nat) → Stats → Outcome × List Item × Stats
  | 0, _, st => (.internalError, store, st)
  | fuel + 1, attempt, st =>
    match store.find? (fun x => x.id == id) with
    | none =>
      (.internalError, store,
       ⟨st.calls + 1, st.attempts + 1, st.rollbacks + 1, st.delays⟩)
    | some _ =>
      if updateDataEmpty u then
        (.internalError, store,
         ⟨st.calls + 1, st.attempts + 1, st.rollbacks + 1, st.delays⟩)
      else
        match behav attempt with
        | .opError msg =>
          if lockish msg ∧ attempt < maxRetries - 1 then
            update_item_loop store id u behav fuel (attempt + 1)
              ⟨st.calls + 2, st.attempts + 1, st.rollbacks + 1,
               st.delays ++ [retryDelayMs * (attempt + 1)]⟩
          else
            (.busy, store,
             ⟨st.calls + 2, st.attempts + 1, st.rollbacks + 1, st.delays⟩)
        | .integrityError =>
          (.integrityError, store,
           ⟨st.calls + 2, st.attempts + 1, st.rollbacks + 1, st.delays⟩)
        | .otherError =>
          (.internalError, store,
           ⟨st.calls + 2, st.attempts + 1, st.rollbacks + 1, st.delays⟩)
        | .ok =>
          if writesNull u then
            (.integrityError, store,
             ⟨st.calls + 2, st.attempts + 1, st.rollbacks + 1, st.delays⟩)
          else
            let store2 := store.map fun x => if x.id == id then applyUpdate x u else x
            match store2.find? (fun x => x.id == id) with
            | some r2 =>
              (.ok r2, store2, ⟨st.calls + 3, st.attempts + 1, st.rollbacks, st.delays⟩)
            | none =>
              (.internalError, store2,
               ⟨st.calls + 3, st.attempts + 1, st.rollbacks, st.delays⟩)

/-- `PUT /items/{id}` (`update_item`): request-body validation of
`ItemUpdate` happens before the handler (zero store calls on
rejection); then the retry loop runs with all three attempts. -/
def update_item (store : List Item) (id : Nat) (r : RawUpdate)
    (behav : Nat → StoreBehav) : Outcome × List Item × Stats :=
  match validateUpdate r with
  | none => (.validationError, store, stats0)
  | some u => update_item_loop store id u behav maxRetries 0 stats0

/-! ## Concrete inputs used by the witnesses -/

/-- One stored row: id 1, "Widget", price 10.00, quantity 5. -/
def wRow : Item := ⟨1, "Widget", none, ⟨1000, 2⟩, 5⟩

def wStore : List Item := [wRow]

/-- A full update body: name "W2", price 9.999, quantity 3. -/
def wRawFull : RawUpdate :=
  ⟨some (some "W2"), none, some (some ⟨9999, 3⟩), some (some 3)⟩

/-- `wRawFull` after validation (price quantized to 10.00). -/
def wU : ItemUpdateV :=
  ⟨some (some "W2"), none, some (some ⟨1000, 2⟩), some (some 3)⟩

def lockedMsg : String := "database is locked"

/-- Store behaviour: locked `OperationalError` on the first two
attempts, success on the third. -/
def behavRetry : Nat → StoreBehav :=
  fun n => if n < 2 then .opError lockedMsg else .ok

/-- Store behaviour: locked `OperationalError` on every attempt. -/
def behavLocked : Nat → StoreBehav := fun _ => .opError lockedMsg

/-- Three items priced 5.00, 10.00 and 15.00. -/
def fStore : List Item :=
  [⟨1, "A", none, ⟨500, 2⟩, 1⟩, ⟨2, "B", none, ⟨1000, 2⟩, 1⟩,
   ⟨3, "C", none, ⟨1500, 2⟩, 1⟩]

/-- An update body whose `quantity` is supplied explicitly as `null`. -/
def wRawNullQty : RawUpdate :=
  ⟨some (some "W"), none, some (some ⟨100, 2⟩), some none⟩

/-- `wRawNullQty` after validation: `quantity` is set with value null. -/
def wUNullQty : ItemUpdateV :=
  ⟨some (some "W"), none, some (some ⟨100, 2⟩), some none⟩

/-! ## Helper lemmas -/

/-- Quantization always produces scale 2. -/
theorem Dec.quantize2_scale (d : Dec) : (d.quantize2).scale = 2 := by
  unfold Dec.quantize2; split <;> rfl

/-- Every element of a list of naturals is bounded by their
`foldr max 0`. -/
theorem le_foldr_max (l : List Nat) (x : Nat) (hx : x ∈ l) :
    x ≤ l.foldr max 0 := by
  induction l with
  | nil => cases hx
  | cons a t ih =>
    rcases List.mem_cons.mp hx with h | h
    · subst h; exact le_max_left _ _
    · exact le_trans (ih h) (le_max_right _ _)

/-- Re-reading a freshly inserted row by its id finds exactly that row
when the id is unused in the rest of the store. -/
theorem find?_append_fresh (store : List Item) (row : Item) (nid : Nat)
    (hid : row.id = nid)
    (h : ∀ x ∈ store, x.id ≠ nid) :
    (store ++ [row]).find? (fun x => x.id == nid) = some row := by
  induction store with
  | nil => simp [List.find?, hid]
  | cons a t ih =>
    have ha : (a.id == nid) = false := by
      simpa using h a (List.mem_cons_self a t)
    rw [List.cons_append, List.find?_cons_of_neg _ (by simp [ha])]
    exact ih (fun x hx => h x (List.mem_cons_of_mem _ hx))

/-- A validated update payload always has its `name` field set
(`name` is a required key), so `update_data` is never empty. -/
theorem validateUpdate_not_empty (r : RawUpdate) (u : ItemUpdateV)
    (h : validateUpdate r = some u) : updateDataEmpty u = false := by
  unfold validateUpdate at h
  split at h
  · split at h
    · split at h
      · injection h with h; subst h; rfl
      · split at h
        · injection h with h; subst h; rfl
        · cases h
    · cases h
  · cases h

/-- Any non-null price in a validated update payload has been quantized
to scale 2. -/
theorem validateUpdate_price_scale (r : RawUpdate) (u : ItemUpdateV) (d : Dec)
    (h : validateUpdate r = some u) (hp : u.price = some (some d)) : d.scale = 2 := by
  unfold validateUpdate at h
  split at h
  next nv pv qv =>
    split at h
    next n2 p2 q2 hn hpp hq =>
      unfold checkPriceU at hpp
      split at hpp
      · injection hpp with hpp
        subst hpp
        split at h
        · injection h with h; subst h; simp at hp
        · split at h
          · injection h with h; subst h; simp at hp
          · cases h
      · split at hpp
        · cases hpp
        · injection hpp with hpp
          subst hpp
          split at h
          · injection h with h; subst h
            simp at hp; subst hp; exact Dec.quantize2_scale _
          · split at h
            · injection h with h; subst h
              simp at hp; subst hp; exact Dec.quantize2_scale _
            · cases h
    · cases h
  · cases h

/-- A successful create validation quantizes the price. -/
theorem validateCreate_ok_price (r : RawCreate) (p : CreatePayload)
    (h : validateCreate r = some p) : p.price = r.price.quantize2 := by
  unfold validateCreate at h
  split at h
  · cases h
  · split at h
    · cases h
    · split at h
      · cases h
      · split at h
        · cases h
        · split at h
          · cases h
          · injection h with h; subst h; rfl

/-- `create_item` on input that fails validation: 400 and no store
call. -/
theorem create_item_of_invalid (store : List Item) (r : RawCreate)
    (h : validateCreate r = none) :
    create_item store r = (.validationError, store, 0) := by
  simp only [create_item, h]

/-- `create_item` on validated input: the row is inserted under a fresh
id and returned by the re-read. -/
theorem create_item_of_valid (store : List Item) (r : RawCreate) (p : CreatePayload)
    (h : validateCreate r = some p) :
    create_item store r =
      (.ok ⟨(store.map Item.id).foldr max 0 + 1, p.name, p.description, p.price, p.quantity⟩,
       store ++ [⟨(store.map Item.id).foldr max 0 + 1, p.name, p.description, p.price, p.quantity⟩],
       2) := by
  have hfresh : ∀ x ∈ store, x.id ≠ (store.map Item.id).foldr max 0 + 1 := by
    intro x hx
    have := le_foldr_max (store.map Item.id) x.id (List.mem_map_of_mem Item.id hx)
    omega
  simp only [create_item, h]
  rw [find?_append_fresh store
        ⟨(store.map Item.id).foldr max 0 + 1, p.name, p.description, p.price, p.quantity⟩
        ((store.map Item.id).foldr max 0 + 1) rfl hfresh]

/-- Updating every row of matching id preserves the result of a lookup
by that id, up to `applyUpdate` (`applyUpdate` never changes `id`). -/
theorem find?_map_applyUpdate (l : List Item) (id : Nat) (u : ItemUpdateV) (row : Item)
    (h : l.find? (fun x => x.id == id) = some row) :
    (l.map fun x => if x.id == id then applyUpdate x u else x).find? (fun x => x.id == id)
      = some (applyUpdate row u) := by
  induction l with
  | nil => simp at h
  | cons a t ih =>
    by_cases ha : (a.id == id) = true
    · rw [List.find?_cons_of_pos (p := fun x : Item => x.id == id) _ ha] at h
      injection h with h; subst h
      have hid : ((applyUpdate a u).id == id) = true := by
        simpa [applyUpdate] using ha
      simp only [List.map_cons, ha, if_true]
      rw [List.find?_cons_of_pos (p := fun x : Item => x.id == id) _ hid]
    · rw [List.find?_cons_of_neg (p := fun x : Item => x.id == id) _ (by simpa using ha)] at h
      simp only [List.map_cons, ha, if_false]
      rw [List.find?_cons_of_neg (p := fun x : Item => x.id == id) _ (by simpa using ha)]
      exact ih h

/-- Removing every row of a given id makes a lookup by that id fail. -/
theorem find?_filter_erase (l : List Item) (id : Nat) :
    (l.filter fun x => !(x.id == id)).find? (fun x => x.id == id) = none := by
  rw [List.find?_eq_none]
  intro x hx
  have hmem := (List.mem_filter.mp hx).2
  simp at hmem ⊢
  exact hmem

/-- The retry loop enters at most `fuel` further iterations. -/
theorem update_item_loop_attempts_le (store : List Item) (id : Nat) (u : ItemUpdateV)
    (behav : Nat → StoreBehav) :
    ∀ (fuel attempt : Nat) (st : Stats),
      (update_item_loop store id u behav fuel attempt st).2.2.attempts ≤ st.attempts + fuel := by
  intro fuel
  induction fuel with
  | zero => intro attempt st; simp [update_item_loop]
  | succ n ih =>
    intro attempt st
    simp only [update_item_loop]
    split
    · simp
    · split
      · simp
      · split
        · split
          · exact le_trans (ih (attempt + 1) _) (by simp; omega)
          · simp
        · simp
        · simp
        · split
          · simp
          · split <;> simp

/-- One update call never makes more than `max_retries` attempts. -/
theorem update_item_attempts_le (store : List Item) (id : Nat) (r : RawUpdate)
    (behav : Nat → StoreBehav) :
    (update_item store id r behav).2.2.attempts ≤ maxRetries := by
  unfold update_item
  cases hv : validateUpdate r with
  | none => simp [stats0, maxRetries]
  | some u =>
    have := update_item_loop_attempts_le store id u behav maxRetries 0 stats0
    simpa [stats0] using this

/-! ## The claims -/

/-- Claim C1: the spec says every field of the partial-update payload is
optional and any non-empty subset passes input validation.  In the code
`ItemUpdate` declares `name`, `price` and `quantity` with `Field(...)`
(required), so a payload supplying only `quantity` — or only `name`, or
nothing — is rejected by request validation, while a payload supplying
all three passes. -/
theorem c1_update_payload_fields_required :
    validateUpdate ⟨none, none, none, some (some 3)⟩ = none ∧
    validateUpdate ⟨some (some "Widget"), none, none, none⟩ = none ∧
    validateUpdate ⟨none, none, none, none⟩ = none ∧
    validateUpdate ⟨some (some "Widget"), none, some (some ⟨1000, 2⟩), some (some 3)⟩
      = some ⟨some (some "Widget"), none, some (some ⟨1000, 2⟩), some (some 3)⟩ := by
  decide

/-- Claim C2: on an existing item, an update supplying only `quantity`
does not merge — it is rejected by request validation (`name` and
`price` are required keys), the handler never runs and the store is
untouched. -/
theorem c2_quantity_only_update_rejected :
    update_item wStore 1 ⟨none, none, none, some (some 3)⟩ (fun _ => .ok)
      = (.validationError, wStore, stats0) := rfl

/-- Claim C3: contention retry policy of `update_item`.  With a valid
payload and an existing row: (i) if the first two attempts raise a
locked `OperationalError` and the third succeeds, the call returns the
updated row with exactly two backoff delays of 100 ms and 200 ms and a
rollback before each retry; (ii) if every attempt raises a locked
`OperationalError`, the call fails busy after exactly 3 attempts with
the same two delays; (iii) no behaviour ever yields more than
`max_retries = 3` attempts. -/
theorem c3_update_contention_retry_policy
    (store : List Item) (id : Nat) (r : RawUpdate) (u : ItemUpdateV) (row : Item)
    (behav behavAll : Nat → StoreBehav) (m0 m1 : String)
    (hv : validateUpdate r = some u)
    (hrow : store.find? (fun x => x.id == id) = some row)
    (hnn : writesNull u = false)
    (h0 : behav 0 = .opError m0) (hl0 : lockish m0 = true)
    (h1 : behav 1 = .opError m1) (hl1 : lockish m1 = true)
    (h2 : behav 2 = .ok)
    (hall : ∀ n, ∃ m, behavAll n = .opError m ∧ lockish m = true) :
    update_item store id r behav =
      (.ok (applyUpdate row u),
       store.map fun x => if x.id == id then applyUpdate x u else x,
       ⟨7, 3, 2, [100, 200]⟩) ∧
    update_item store id r behavAll = (.busy, store, ⟨6, 3, 3, [100, 200]⟩) ∧
    (∀ b : Nat → StoreBehav, (update_item store id r b).2.2.attempts ≤ 3) := by
  have hne := validateUpdate_not_empty r u hv
  have hmap := find?_map_applyUpdate store id u row hrow
  refine ⟨?_, ?_, fun b => update_item_attempts_le store id r b⟩
  · have step0 : update_item_loop store id u behav (2+1) 0 stats0
        = update_item_loop store id u behav 2 1 ⟨2, 1, 1, [100]⟩ := by
      simp [update_item_loop, hrow, hne, h0, hl0, stats0, maxRetries, retryDelayMs]
    have step1 : update_item_loop store id u behav (1+1) 1 ⟨2, 1, 1, [100]⟩
        = update_item_loop store id u behav 1 2 ⟨4, 2, 2, [100, 200]⟩ := by
      simp [update_item_loop, hrow, hne, h1, hl1, maxRetries, retryDelayMs]
    have step2 : update_item_loop store id u behav (0+1) 2 ⟨4, 2, 2, [100, 200]⟩
        = (.ok (applyUpdate row u),
           store.map fun x => if x.id == id then applyUpdate x u else x,
           ⟨7, 3, 2, [100, 200]⟩) := by
      simp only [update_item_loop, hrow, hne, h2, hnn, Bool.false_eq_true, if_false,
        maxRetries]
      rw [hmap]
    unfold update_item
    rw [hv]
    show update_item_loop store id u behav (2+1) 0 stats0 = _
    rw [step0]
    rw [show (2:Nat) = 1+1 from rfl] at step1 ⊢
    exact step1.trans step2
  · obtain ⟨n0, hb0, hbl0⟩ := hall 0
    obtain ⟨n1, hb1, hbl1⟩ := hall 1
    obtain ⟨n2, hb2, hbl2⟩ := hall 2
    have step0 : update_item_loop store id u behavAll (2+1) 0 stats0
        = update_item_loop store id u behavAll 2 1 ⟨2, 1, 1, [100]⟩ := by
      simp [update_item_loop, hrow, hne, hb0, hbl0, stats0, maxRetries, retryDelayMs]
    have step1 : update_item_loop store id u behavAll (1+1) 1 ⟨2, 1, 1, [100]⟩
        = update_item_loop store id u behavAll 1 2 ⟨4, 2, 2, [100, 200]⟩ := by
      simp [update_item_loop, hrow, hne, hb1, hbl1, maxRetries, retryDelayMs]
    have step2 : update_item_loop store id u behavAll (0+1) 2 ⟨4, 2, 2, [100, 200]⟩
        = (.busy, store, ⟨6, 3, 3, [100, 200]⟩) := by
      simp [update_item_loop, hrow, hne, hb2, hbl2, maxRetries]
    unfold update_item
    rw [hv]
    show update_item_loop store id u behavAll (2+1) 0 stats0 = _
    rw [step0]
    rw [show (2:Nat) = 1+1 from rfl] at step1 ⊢
    exact step1.trans step2

/-- Witness for C3 at concrete inputs: one item, a full valid payload,
two locked attempts then success; and all-locked attempts. -/
theorem c3_update_contention_retry_policy_witness :
    update_item wStore 1 wRawFull behavRetry =
      (.ok (applyUpdate wRow wU),
       wStore.map fun x => if x.id == 1 then applyUpdate x wU else x,
       ⟨7, 3, 2, [100, 200]⟩) ∧
    update_item wStore 1 wRawFull behavLocked = (.busy, wStore, ⟨6, 3, 3, [100, 200]⟩) := by
  have h := c3_update_contention_retry_policy wStore 1 wRawFull wU wRow
    behavRetry behavLocked lockedMsg lockedMsg
    (by decide) (by decide) (by decide) (by decide) (by decide)
    (by decide) (by decide) (by decide)
    (fun n => ⟨lockedMsg, rfl, by decide⟩)
  exact ⟨h.1, h.2.1⟩

/-- Claim C4: an update payload supplying zero fields always fails
request validation (`name`, `price`, `quantity` are missing required
keys) and the store is never called — the handler body, including its
existence SELECT, is never reached. -/
theorem c4_empty_update_rejected_before_store (store : List Item) (id : Nat)
    (behav : Nat → StoreBehav) :
    update_item store id ⟨none, none, none, none⟩ behav
      = (.validationError, store, stats0) ∧ stats0.calls = 0 :=
  ⟨rfl, rfl⟩

/-- Counterexample to claim C5 as stated: a non-contention
`OperationalError` (message without "locked") on the first attempt is
routed to the `else` branch of the retry handler and fails with the
"Database is busy" 500 — busy, not the generic storage 500 the claim
requires. -/
theorem c5_noncontention_busy_counterexample :
    (update_item wStore 1 wRawFull
        (fun _ => .opError "unable to open database file")).1 = .busy ∧
    Outcome.busy ≠ Outcome.internalError := by
  refine ⟨by decide, by decide⟩

/-- Claim C5 (amended): with a valid payload and an existing row, any
non-contention failure on the first attempt aborts immediately — one
attempt, no backoff, no retry: an `IntegrityError` surfaces as the 400
integrity response, a non-`OperationalError` failure as the generic
500, and a non-contention `OperationalError` as the busy 500. -/
theorem c5_noncontention_abort_immediately
    (store : List Item) (id : Nat) (r : RawUpdate) (u : ItemUpdateV) (row : Item)
    (bI bO bN : Nat → StoreBehav) (msg : String)
    (hv : validateUpdate r = some u)
    (hrow : store.find? (fun x => x.id == id) = some row)
    (hI : bI 0 = .integrityError)
    (hO : bO 0 = .otherError)
    (hN : bN 0 = .opError msg) (hnl : lockish msg = false) :
    update_item store id r bI = (.integrityError, store, ⟨2, 1, 1, []⟩) ∧
    update_item store id r bO = (.internalError, store, ⟨2, 1, 1, []⟩) ∧
    update_item store id r bN = (.busy, store, ⟨2, 1, 1, []⟩) := by
  have hne := validateUpdate_not_empty r u hv
  refine ⟨?_, ?_, ?_⟩ <;>
  · unfold update_item
    rw [hv]
    show update_item_loop store id u _ (2+1) 0 stats0 = _
    simp [update_item_loop, hrow, hne, hI, hO, hN, hnl, stats0]

/-- Witness for C5 (amended) at concrete inputs. -/
theorem c5_noncontention_abort_immediately_witness :
    update_item wStore 1 wRawFull (fun _ => .integrityError)
      = (.integrityError, wStore, ⟨2, 1, 1, []⟩) ∧
    update_item wStore 1 wRawFull (fun _ => .otherError)
      = (.internalError, wStore, ⟨2, 1, 1, []⟩) ∧
    update_item wStore 1 wRawFull (fun _ => .opError "no such table: items")
      = (.busy, wStore, ⟨2, 1, 1, []⟩) :=
  c5_noncontention_abort_immediately wStore 1 wRawFull wU wRow
    (fun _ => .integrityError) (fun _ => .otherError)
    (fun _ => .opError "no such table: items") "no such table: items"
    (by decide) (by decide) rfl rfl rfl (by decide)

/-- Claim C6: every price that reaches persistence is quantized to
exactly two decimal places: quantization always produces scale 2; a
successful create returns a record whose price is the input price
quantized; and any price in a validated update payload has scale 2. -/
theorem c6_price_normalized_two_places :
    (∀ d : Dec, (d.quantize2).scale = 2) ∧
    (∀ (store : List Item) (r : RawCreate) (it : Item),
       (create_item store r).1 = .ok it →
       it.price = r.price.quantize2 ∧ it.price.scale = 2) ∧
    (∀ (r : RawUpdate) (u : ItemUpdateV) (d : Dec),
       validateUpdate r = some u → u.price = some (some d) → d.scale = 2) := by
  refine ⟨Dec.quantize2_scale, ?_, validateUpdate_price_scale⟩
  intro store r it h
  cases hv : validateCreate r with
  | none =>
    rw [create_item_of_invalid store r hv] at h
    cases h
  | some p =>
    rw [create_item_of_valid store r p hv] at h
    injection h with h
    subst h
    exact ⟨validateCreate_ok_price r p hv, by
      rw [validateCreate_ok_price r p hv]; exact Dec.quantize2_scale _⟩

/-- Witness for C6: creating price 9.999 stores exactly 10.00. -/
theorem c6_price_normalized_two_places_witness :
    (⟨1000, 2⟩ : Dec) = (⟨9999, 3⟩ : Dec).quantize2 ∧ (⟨1000, 2⟩ : Dec).scale = 2 := by
  have h := c6_price_normalized_two_places.2.1 []
    ⟨"Widget", none, ⟨9999, 3⟩, 5⟩ ⟨1, "Widget", none, ⟨1000, 2⟩, 5⟩ (by decide)
  exact ⟨h.1, h.2⟩

/-- Counterexample to claim C7 as stated: the name filter is not
"name contains the given substring".  It is SQLite `LIKE`, ASCII
case-insensitive and with `%`/`_` wildcards: `name_contains = "widget"`
returns the row named "WIDGET", and `name_contains = "%"` returns a row
named "ABC", although neither name literally contains the parameter. -/
theorem c7_name_filter_not_literal_containment_counterexample :
    list_items [⟨1, "WIDGET", none, ⟨500, 2⟩, 1⟩] 0 100 none none (some "widget")
      = [⟨1, "WIDGET", none, ⟨500, 2⟩, 1⟩] ∧
    specLiteralContains "WIDGET" "widget" = false ∧
    list_items [⟨1, "ABC", none, ⟨500, 2⟩, 1⟩] 0 100 none none (some "%")
      = [⟨1, "ABC", none, ⟨500, 2⟩, 1⟩] ∧
    specLiteralContains "ABC" "%" = false := by
  decide

/-- Claim C7 (amended): `list_items` returns exactly the records
passing the conjunction of the optional filters, paginated by skip and
limit, where the name filter is SQLite `LIKE '%' || name_contains || '%'`
(ASCII case-insensitive, `%`/`_` in the parameter act as wildcards)
rather than literal substring containment: every returned record is a
stored record satisfying each given filter; conversely with `skip = 0`
and a limit at least the store size, every stored record satisfying the
filters is returned; and on items priced 5.00 / 10.00 / 15.00 the range
[6, 12] returns exactly the 10.00 item. -/
theorem c7_list_filter_conjunction_pagination :
    (∀ (store : List Item) (skip limit : Nat) (mp xp : Option Dec)
       (nc : Option String) (x : Item),
       x ∈ list_items store skip limit mp xp nc →
       x ∈ store ∧
       (∀ m, mp = some m → Dec.leB m x.price = true) ∧
       (∀ m, xp = some m → Dec.leB x.price m = true) ∧
       (∀ s, nc = some s → s ≠ "" → sqlLikeContains x.name s = true)) ∧
    (∀ (store : List Item) (limit : Nat) (mp xp : Option Dec)
       (nc : Option String) (x : Item),
       store.length ≤ limit → x ∈ store → itemMatches mp xp nc x = true →
       x ∈ list_items store 0 limit mp xp nc) ∧
    (list_items fStore 0 100 (some ⟨6, 0⟩) (some ⟨12, 0⟩) none
      = [⟨2, "B", none, ⟨1000, 2⟩, 1⟩]) := by
  refine ⟨?_, ?_, by decide⟩
  · intro store skip limit mp xp nc x hx
    have hx1 : x ∈ store.filter (itemMatches mp xp nc) :=
      List.mem_of_mem_drop (List.mem_of_mem_take hx)
    have hm := (List.mem_filter.mp hx1).2
    refine ⟨(List.mem_filter.mp hx1).1, ?_, ?_, ?_⟩
    · intro m hmp
      subst hmp
      simp only [itemMatches, Bool.and_eq_true] at hm
      exact hm.1.1
    · intro m hxp
      subst hxp
      simp only [itemMatches, Bool.and_eq_true] at hm
      exact hm.1.2
    · intro s hnc hs
      subst hnc
      simp only [itemMatches, Bool.and_eq_true] at hm
      have h2 := hm.2
      rwa [if_neg hs] at h2
  · intro store limit mp xp nc x hlen hx hmatch
    unfold list_items
    rw [List.drop_zero,
      List.take_of_length_le (le_trans (List.length_filter_le _ _) hlen)]
    exact List.mem_filter.mpr ⟨hx, hmatch⟩

/-- Witness for C7: the 10.00 item is returned for the range [6, 12]
and satisfies both price bounds. -/
theorem c7_list_filter_conjunction_pagination_witness :
    (⟨2, "B", none, ⟨1000, 2⟩, 1⟩ : Item) ∈ fStore ∧
    Dec.leB ⟨6, 0⟩ ⟨1000, 2⟩ = true ∧ Dec.leB ⟨1000, 2⟩ ⟨12, 0⟩ = true := by
  have h := c7_list_filter_conjunction_pagination.1 fStore 0 100
    (some ⟨6, 0⟩) (some ⟨12, 0⟩) none ⟨2, "B", none, ⟨1000, 2⟩, 1⟩ (by decide)
  exact ⟨h.1, h.2.1 _ rfl, h.2.2.1 _ rfl⟩

/-- Claim C8: absence is never a store-level failure: on an id not in
the store `get_item` returns the 404, a generic 500 can only come from
a store fault, and after a successful delete a `get_item` of the same
id returns the 404. -/
theorem c8_absence_is_notfound_never_storage :
    (∀ (store : List Item) (id : Nat),
       store.find? (fun x => x.id == id) = none → get_item store id false = .notFound) ∧
    (∀ (store : List Item) (id : Nat) (fault : Bool),
       get_item store id fault = .internalError → fault = true) ∧
    (∀ (store : List Item) (id : Nat) (msg : String) (store2 : List Item),
       delete_item store id false = (.okMessage msg, store2) →
       get_item store2 id false = .notFound) := by
  refine ⟨?_, ?_, ?_⟩
  · intro store id h
    simp [get_item, h]
  · intro store id fault h
    cases fault with
    | true => rfl
    | false =>
      exfalso
      unfold get_item at h
      rw [if_neg (by simp)] at h
      split at h <;> simp_all
  · intro store id msg store2 h
    unfold delete_item at h
    rw [if_neg (by simp)] at h
    split at h
    · simp at h
    · have h2 : store2 = store.filter (fun x => !(x.id == id)) := by
        have := congrArg Prod.snd h
        simpa using this.symm
      subst h2
      unfold get_item
      rw [if_neg (by simp), find?_filter_erase]

/-- Witness for C8: delete of id 1 then get of id 1 is a 404; get of an
absent id 7 is a 404. -/
theorem c8_absence_is_notfound_never_storage_witness :
    get_item ([] : List Item) 1 false = .notFound ∧
    get_item wStore 7 false = .notFound := by
  refine ⟨c8_absence_is_notfound_never_storage.2.2 wStore 1
    "Item deleted successfully" [] (by decide), ?_⟩
  exact c8_absence_is_notfound_never_storage.1 wStore 7 (by decide)

/-- Claim C9: a create input with a negative price, a negative quantity
or an empty name always fails request validation and never reaches the
store (zero store calls, store unchanged). -/
theorem c9_invalid_create_never_reaches_store (store : List Item) (r : RawCreate)
    (h : r.price.negB = true ∨ r.quantity < 0 ∨ r.name = "") :
    create_item store r = (.validationError, store, 0) := by
  have hv : validateCreate r = none := by
    unfold validateCreate
    split_ifs with h1 h2 h3 h4 h5 <;> try rfl
    exfalso
    rcases h with h | h | h
    · exact h4 h
    · exact h5 h
    · exact h1 (by rw [h]; decide)
  exact create_item_of_invalid store r hv

/-- Witness for C9 at a concrete negative price. -/
theorem c9_invalid_create_never_reaches_store_witness :
    create_item [] ⟨"Widget", none, ⟨-100, 2⟩, 5⟩ = (.validationError, [], 0) :=
  c9_invalid_create_never_reaches_store [] ⟨"Widget", none, ⟨-100, 2⟩, 5⟩
    (Or.inl (by decide))

/-- Claim C10: a field supplied explicitly as `null` survives
`model_dump(exclude_unset=True)` and is written by the UPDATE
statement: with `quantity: null` in an otherwise valid payload and an
existing row, the UPDATE executes (2 store calls), the NOT NULL
constraint fires, and the call fails with the 400 integrity response
after rollback — it is not skipped by the merge. -/
theorem c10_explicit_null_hits_constraint
    (store : List Item) (id : Nat) (r : RawUpdate) (u : ItemUpdateV) (row : Item)
    (behav : Nat → StoreBehav)
    (hv : validateUpdate r = some u)
    (hq : u.quantity = some none)
    (hrow : store.find? (fun x => x.id == id) = some row)
    (hb : behav 0 = .ok) :
    update_item store id r behav = (.integrityError, store, ⟨2, 1, 1, []⟩) := by
  have hne := validateUpdate_not_empty r u hv
  have hwn : writesNull u = true := by simp [writesNull, hq]
  unfold update_item
  rw [hv]
  show update_item_loop store id u behav (2+1) 0 stats0 = _
  simp [update_item_loop, hrow, hne, hb, hwn, stats0]

/-- Witness for C10 at a concrete payload with `quantity: null`. -/
theorem c10_explicit_null_hits_constraint_witness :
    update_item wStore 1 wRawNullQty (fun _ => .ok)
      = (.integrityError, wStore, ⟨2, 1, 1, []⟩) :=
  c10_explicit_null_hits_constraint wStore 1 wRawNullQty wUNullQty wRow
    (fun _ => .ok) (by decide) rfl (by decide) rfl

end ItemService
